import Mathlib

/-! Verification of the paas-ai RAG ingestion-and-retrieval pipeline.

Shallow embedding of `src/paas_ai/core/rag/pipeline.py` (RAGProcessor),
`src/paas_ai/core/rag/vectorstore/factory.py` (VectorStoreFactory) and
`src/paas_ai/core/rag/retrievers/factory.py` (RetrieverFactory).

External effects are passed explicitly: the clock (`now : Nat` replaces
`time.time()`), the filesystem (a `dirExists` flag), the outcome of the
external LangChain loader/splitter stages (`LoadSplitOutcome`), the backend
construction/loading attempts (`Except String VStore` parameters) and the
runtime behaviour of LangChain retriever objects (`RetrieverEnv`).
Python dictionaries are embedded as association lists read with a
last-binding-wins lookup (`alookup`), which matches `dict` literal and
`dict.update` semantics; `d.update(u)` becomes `d ++ u`. -/

namespace PaasAI

/-- Metadata values occurring in a chunk's metadata dictionary: strings
(`source_url`, `resource_type`), integers (`priority`), lists of strings
(`tags`) and the ingestion timestamp (`processed_at`, an abstract clock
tick standing for the float returned by `time.time()`). -/
inductive MVal where
  | s (v : String)
  | i (v : Int)
  | strs (v : List String)
  | time (v : Nat)
deriving DecidableEq, Repr

/-- Last-binding-wins lookup in an association list: the embedding of
reading key `k` from a Python dict represented as the list of bindings in
insertion order (a later binding for the same key overwrites an earlier
one, exactly as in `dict`). -/
def alookup {α : Type} (d : List (String × α)) (k : String) : Option α :=
  d.foldl (fun acc kv => if kv.1 = k then some kv.2 else acc) none

theorem alookup_foldl_init {α : Type} (u : List (String × α)) (k : String)
    (init : Option α) :
    u.foldl (fun acc kv => if kv.1 = k then some kv.2 else acc) init =
      match alookup u k with
      | some v => some v
      | none => init := by
  induction u generalizing init with
  | nil => simp [alookup]
  | cons kv tl ih =>
    show tl.foldl _ (if kv.1 = k then some kv.2 else init) = _
    rw [ih]
    have : alookup (kv :: tl) k =
        tl.foldl (fun acc kv => if kv.1 = k then some kv.2 else acc)
          (if kv.1 = k then some kv.2 else none) := rfl
    rw [this, ih]
    cases h : alookup tl k with
    | some v => simp
    | none => by_cases hk : kv.1 = k <;> simp [hk]

/-- Appending bindings on the right (a `dict.update`) makes the appended
bindings win per key. -/
theorem alookup_append {α : Type} (d u : List (String × α)) (k : String) :
    alookup (d ++ u) k =
      match alookup u k with
      | some v => some v
      | none => alookup d k := by
  unfold alookup
  rw [List.foldl_append]
  exact alookup_foldl_init u k _

/-- A LangChain document: page content plus a metadata dictionary
(`langchain_core.documents.Document`, external; only the two fields the
pipeline reads and writes are embedded). -/
structure Doc where
  page_content : String
  metadata : List (String × MVal)
deriving DecidableEq, Repr

/-- A vector store is embedded as the list of documents it indexes; the
backend objects (Chroma, FAISS, Pinecone) are external LangChain code. -/
abbrev VStore := List Doc

/-- Modelled from the spec: `ResourceConfig` (declared in `rag/config.py`,
which is not among the provided source files) — one unit of ingestible
content with url, enumerated `resource_type` tag (embedded as a String),
priority, tags and an open metadata map (spec section 3). The nested
loader/splitter strategy sub-configs are consumed only by the external
loader/splitter factories and are not needed by the embedded operations. -/
structure ResourceConfig where
  url : String
  resource_type : String
  priority : Int
  tags : List String
  metadata : List (String × MVal)
deriving DecidableEq, Repr

/-- Modelled from the spec: `EmbeddingConfig` (`rag/config.py`, not among
the provided sources) — a provider `type` enum (embedded as a String) plus
a model name (spec section 3). -/
structure EmbeddingConfig where
  type : String
  model_name : String
deriving DecidableEq, Repr

/-- An opaque parameter value from a strategy config's free-form `params`
map (weights, child_splitter, docstore, ...): the pipeline only tests
these for presence and passes them through. -/
structure PVal where
  id : Nat
deriving DecidableEq, Repr

/-- Modelled from the spec: `VectorStoreConfig` (`rag/config.py`, not among
the provided sources) — a backend `type` enum (String), `collection_name`,
optional `persist_directory` path and a free-form `params` map (spec
section 3). A `persist_directory` of `none` or `some ""` stands for a
Python-falsy value. -/
structure VectorStoreConfig where
  type : String
  collection_name : String
  persist_directory : Option String
  params : List (String × PVal)
deriving DecidableEq, Repr

/-- Modelled from the spec: `RetrieverConfig` (`rag/config.py`, not among
the provided sources) — a strategy `type` enum (String), `search_kwargs`
and a free-form `params` map (spec sections 3 and 4.5). -/
structure RetrieverConfig where
  type : String
  search_kwargs : List (String × PVal)
  params : List (String × PVal)
deriving DecidableEq, Repr

/-- Modelled from the spec: the pipeline `Config` (`rag/config.py`, not
among the provided sources) — the sub-configs plus the `validate_urls` and
`skip_invalid_docs` policy flags (spec section 6). -/
structure RAGConfig where
  embedding : EmbeddingConfig
  vectorstore : VectorStoreConfig
  retriever : RetrieverConfig
  validate_urls : Bool
  skip_invalid_docs : Bool
deriving DecidableEq, Repr

/-- An opaque LLM handle (only tested for presence by the retriever
factory). -/
structure LLM where
  id : Nat
deriving DecidableEq, Repr

/-- What `RetrieverFactory.create_retriever` constructs, following
`retrievers/factory.py`: either `vectorstore.as_retriever(search_type,
search_kwargs, **params)`, an `EnsembleRetriever` over a similarity and an
mmr retriever (with `weights` taken from params, `none` standing for the
default `[0.5, 0.5]`), a `MultiQueryRetriever` built from a similarity
base retriever and an LLM, or a `ParentDocumentRetriever`. -/
inductive BuiltRetriever where
  | fromVectorstore (vs : VStore) (search_type : String)
      (search_kwargs : List (String × PVal)) (params : List (String × PVal))
  | ensemble (sim mmr : BuiltRetriever) (weights : Option PVal)
      (rest : List (String × PVal))
  | multiQuery (base : BuiltRetriever) (llm : LLM)
      (params : List (String × PVal))
  | parentDocument (vs : VStore) (docstore : Option PVal)
      (child_splitter : PVal) (rest : List (String × PVal))
deriving DecidableEq, Repr

/-- Embedding of `RetrieverFactory.create_retriever`
(`retrievers/factory.py` lines 19-96). The `RetrieverType` enum values are
modelled from the spec (section 4.5) as the strings `similarity`, `mmr`,
`similarity_score_threshold`, `ensemble`, `multi_query` and
`parent_document`, since `rag/config.py` is not among the provided
sources. Raising `ValueError` is embedded as `Except.error` with the
source's message. -/
def create_retriever (cfg : RetrieverConfig) (vs : VStore)
    (llm : Option LLM) : Except String BuiltRetriever :=
  let search_kwargs := cfg.search_kwargs
  let params := cfg.params
  if cfg.type = "similarity" then
    Except.ok (BuiltRetriever.fromVectorstore vs "similarity" search_kwargs params)
  else if cfg.type = "mmr" then
    Except.ok (BuiltRetriever.fromVectorstore vs "mmr" search_kwargs params)
  else if cfg.type = "similarity_score_threshold" then
    Except.ok (BuiltRetriever.fromVectorstore vs "similarity_score_threshold"
      search_kwargs params)
  else if cfg.type = "ensemble" then
    let sim := BuiltRetriever.fromVectorstore vs "similarity" search_kwargs []
    let mmr := BuiltRetriever.fromVectorstore vs "mmr" search_kwargs []
    Except.ok (BuiltRetriever.ensemble sim mmr (alookup params "weights")
      (params.filter (fun kv => kv.1 ≠ "weights")))
  else if cfg.type = "multi_query" then
    match llm with
    | none => Except.error "LLM is required for MultiQueryRetriever"
    | some l =>
      Except.ok (BuiltRetriever.multiQuery
        (BuiltRetriever.fromVectorstore vs "similarity" search_kwargs [])
        l params)
  else if cfg.type = "parent_document" then
    match alookup params "child_splitter" with
    | none => Except.error "child_splitter is required for ParentDocumentRetriever"
    | some cs =>
      Except.ok (BuiltRetriever.parentDocument vs (alookup params "docstore") cs
        (params.filter (fun kv => kv.1 ≠ "docstore" ∧ kv.1 ≠ "child_splitter")))
  else
    Except.error ("Unsupported retriever type: " ++ cfg.type)

/-- Embedding of `VectorStoreFactory.create_vectorstore`
(`vectorstore/factory.py` lines 31-118) as invoked with a non-`None`
documents list. The backend constructors (`Chroma.from_documents`,
`FAISS.from_documents`, `PineconeVectorStore.from_documents`) are external
LangChain code, modelled as building an index holding exactly the given
documents; directory creation and `save_local` persistence are filesystem
effects outside the model. `pineconeAvailable` stands for the optional
`langchain_pinecone` import having succeeded; the `VectorStoreType` enum
values are modelled from the spec as `chroma`, `faiss` and `pinecone`. -/
def create_vectorstore (pineconeAvailable : Bool) (cfg : VectorStoreConfig)
    (docs : List Doc) : Except String VStore :=
  if cfg.type = "chroma" then Except.ok docs
  else if cfg.type = "faiss" then Except.ok docs
  else if cfg.type = "pinecone" then
    if pineconeAvailable then Except.ok docs
    else Except.error "Pinecone integration requires pinecone-client package"
  else Except.error ("Unsupported vector store type: " ++ cfg.type)

/-- Embedding of `VectorStoreFactory.load_vectorstore`
(`vectorstore/factory.py` lines 120-157). `dirExists` is the filesystem
answer to `Path(persist_directory).exists()`; `chromaAttempt` and
`faissAttempt` are the outcomes of the external backend constructors
inside the `try` block (`Except.error` standing for a raised exception,
which the source converts to `None`). A `persist_directory` of `none` or
`some ""` is Python-falsy and short-circuits to `None`. -/
def load_vectorstore (cfg : VectorStoreConfig) (dirExists : Bool)
    (chromaAttempt faissAttempt : Except String VStore) : Option VStore :=
  match cfg.persist_directory with
  | none => none
  | some p =>
    if p = "" then none
    else if !dirExists then none
    else if cfg.type = "chroma" then chromaAttempt.toOption
    else if cfg.type = "faiss" then faissAttempt.toOption
    else none

/-- The mutable pipeline state of a `RAGProcessor` instance:
`embeddingsSet` records whether the `self.embeddings` attribute was
assigned (it is left unset when the initialization error handler falls
through), and `vectorstore` / `retriever` are the `self.vectorstore` /
`self.retriever` attributes. -/
structure RAGState where
  embeddingsSet : Bool
  vectorstore : Option VStore
  retriever : Option BuiltRetriever
deriving DecidableEq, Repr

/-- The five standard metadata keys written by `process_resource`
(`pipeline.py` lines 228-236), in the order of the dict literal. -/
def standardMeta (r : ResourceConfig) (now : Nat) : List (String × MVal) :=
  [("source_url", MVal.s r.url), ("resource_type", MVal.s r.resource_type),
   ("priority", MVal.i r.priority), ("tags", MVal.strs r.tags),
   ("processed_at", MVal.time now)]

/-- The metadata annotation of one chunk (`pipeline.py` lines 228-236):
`doc.metadata.update({standard keys, **resource.metadata})`. Under the
last-binding-wins dictionary embedding the update is an append, with the
resource's own metadata map appended after the standard keys exactly as
`**resource.metadata` places it last in the dict literal. -/
def annotateChunk (r : ResourceConfig) (now : Nat) (d : Doc) : Doc :=
  { d with metadata := d.metadata ++ (standardMeta r now ++ r.metadata) }

/-- The outcome of the external stages inside `process_resource`'s `try`
block (`pipeline.py` lines 176-238): `raiseExc` is an exception raised by
validation, loader creation, `loader.load()` or splitting; `emptyLoad` is
`loader.load()` returning no documents; `split` is a successful run whose
splitting stage produced the given chunks (before annotation). -/
inductive LoadSplitOutcome where
  | raiseExc (msg : String)
  | emptyLoad
  | split (chunks : List Doc)
deriving DecidableEq, Repr

/-- Embedding of `RAGProcessor.process_resource` (`pipeline.py` lines
172-245): an empty load returns `[]` before annotation; a successful
split returns the annotated chunks; an exception is swallowed to `[]`
when `skip_invalid_docs` is set and otherwise re-raised as a
`ProcessingError` with the source's message. -/
def process_resource (cfg : RAGConfig) (now : Nat) (o : LoadSplitOutcome)
    (r : ResourceConfig) : Except String (List Doc) :=
  match o with
  | LoadSplitOutcome.raiseExc e =>
    if cfg.skip_invalid_docs then Except.ok []
    else Except.error ("Failed to process resource " ++ r.url ++ ": " ++ e)
  | LoadSplitOutcome.emptyLoad => Except.ok []
  | LoadSplitOutcome.split chunks =>
    Except.ok (chunks.map (annotateChunk r now))

/-- Scalar test used by metadata filtering: strings, integers and the
timestamp survive, list values do not. -/
def MVal.isSimple : MVal → Bool
  | MVal.s _ => true
  | MVal.i _ => true
  | MVal.time _ => true
  | MVal.strs _ => false

/-- Models the external `langchain_community` utility
`filter_complex_metadata` called by `_add_documents_to_vectorstore`
(`pipeline.py` line 297): non-scalar metadata values are dropped, the
documents themselves are never rejected. -/
def filter_complex_metadata (docs : List Doc) : List Doc :=
  docs.map (fun (d : Doc) =>
    { d with metadata := d.metadata.filter (fun kv => MVal.isSimple kv.2) })

/-- Embedding of `RAGProcessor._add_documents_to_vectorstore`
(`pipeline.py` lines 293-316): filter metadata, create the vector store
when absent or append to it, then rebuild the retriever via
`RetrieverFactory.create_retriever` (called without an LLM). Exceptions
from the vector-store or retriever factories propagate. -/
def add_documents_to_vectorstore (pineconeAvailable : Bool)
    (cfg : RAGConfig) (st : RAGState) (docs : List Doc) :
    Except String RAGState :=
  let filtered := filter_complex_metadata docs
  match st.vectorstore with
  | none =>
    match create_vectorstore pineconeAvailable cfg.vectorstore filtered with
    | Except.error e => Except.error e
    | Except.ok vs =>
      match create_retriever cfg.retriever vs none with
      | Except.error e => Except.error e
      | Except.ok r =>
        Except.ok { st with vectorstore := some vs, retriever := some r }
  | some v =>
    let vs := v ++ filtered
    match create_retriever cfg.retriever vs none with
    | Except.error e => Except.error e
    | Except.ok r =>
      Except.ok { st with vectorstore := some vs, retriever := some r }

/-- The accumulator of `add_resources`'s per-resource loop: the four
mutable summary counters plus the `all_documents` batch. -/
structure AddAcc where
  successful : Nat
  failed : Nat
  total_documents : Nat
  errors : List String
  all_documents : List Doc
deriving DecidableEq, Repr

def addAccInit : AddAcc := ⟨0, 0, 0, [], []⟩

/-- One iteration of `add_resources`'s loop (`pipeline.py` lines 261-277):
a non-empty document list counts as successful and extends the batch; an
empty one counts as failed with a "No documents from <url>" error entry;
a raised exception is caught and counts as failed with a "<url>: <e>"
error entry. -/
def addResourcesStep (cfg : RAGConfig) (now : Nat) (acc : AddAcc)
    (item : ResourceConfig × LoadSplitOutcome) : AddAcc :=
  match process_resource cfg now item.2 item.1 with
  | Except.ok docs =>
    if docs.isEmpty then
      { acc with failed := acc.failed + 1,
                 errors := acc.errors ++ ["No documents from " ++ item.1.url] }
    else
      { acc with successful := acc.successful + 1,
                 total_documents := acc.total_documents + docs.length,
                 all_documents := acc.all_documents ++ docs }
  | Except.error e =>
    { acc with failed := acc.failed + 1,
               errors := acc.errors ++ [item.1.url ++ ": " ++ e] }

/-- The summary record returned by `add_resources`. -/
structure AddSummary where
  total_resources : Nat
  successful : Nat
  failed : Nat
  total_documents : Nat
  errors : List String
deriving DecidableEq, Repr

/-- Embedding of `RAGProcessor.add_resources` (`pipeline.py` lines
247-291): run the per-resource loop, then perform the single batched
vector-store write when any documents accumulated. Each input resource is
paired with the outcome of its external load/split stages. The returned
triple carries the summary, the resulting state and the batch passed to
the single `_add_documents_to_vectorstore` call (`[]` when no write
happened); `Except.error` is an exception propagating out of that write
(the loop itself catches every per-resource exception). -/
def add_resources (pineconeAvailable : Bool) (cfg : RAGConfig) (now : Nat)
    (items : List (ResourceConfig × LoadSplitOutcome)) (st : RAGState) :
    Except String (AddSummary × RAGState × List Doc) :=
  let acc := items.foldl (addResourcesStep cfg now) addAccInit
  let summary : AddSummary :=
    ⟨items.length, acc.successful, acc.failed, acc.total_documents, acc.errors⟩
  if acc.all_documents.isEmpty then Except.ok (summary, st, acc.all_documents)
  else
    match add_documents_to_vectorstore pineconeAvailable cfg st acc.all_documents with
    | Except.error e => Except.error e
    | Except.ok st2 => Except.ok (summary, st2, acc.all_documents)

/-- The runtime behaviour of the external LangChain retriever objects, as
`search` uses them: whether the object has a `search_kwargs` attribute,
its retrieval function (first argument is the current `k` result-count
parameter) and the pre-existing `k` used when `search_kwargs` is absent
and the assignment `search_kwargs['k'] = limit` is skipped. -/
structure RetrieverEnv where
  hasSearchKwargs : BuiltRetriever → Bool
  invoke : BuiltRetriever → Nat → String → List Doc
  defaultK : BuiltRetriever → Nat

/-- The metadata sub-object of a search result (`pipeline.py` lines
353-359). -/
structure SearchMetadata where
  source_url : Option MVal
  resource_type : Option MVal
  tags : MVal
  priority : Option MVal
deriving DecidableEq, Repr

/-- One formatted search result (`pipeline.py` lines 346-361); `score` is
the raw `metadata.get('score')`, `none` standing for the absent key that
the source defaults to `0.0`. -/
structure SearchResult where
  content : String
  score : Option MVal
  metadata : Option SearchMetadata
deriving DecidableEq, Repr

/-- Formatting of one retrieved document into a result record
(`pipeline.py` lines 346-361). -/
def formatResult (include_metadata : Bool) (d : Doc) : SearchResult :=
  { content := d.page_content,
    score := alookup d.metadata "score",
    metadata :=
      if include_metadata then
        some { source_url := alookup d.metadata "source_url",
               resource_type := alookup d.metadata "resource_type",
               tags := (alookup d.metadata "tags").getD (MVal.strs []),
               priority := alookup d.metadata "priority" }
      else none }

/-- Embedding of `RAGProcessor.search` (`pipeline.py` lines 318-364):
fail when no retriever is active; set the retriever's `k` to `limit` when
it exposes `search_kwargs`; retrieve; post-filter by exact
`resource_type` metadata match when one is requested; format. -/
def search (env : RetrieverEnv) (st : RAGState) (query : String)
    (resource_type : Option String) (limit : Nat)
    (include_metadata : Bool) : Except String (List SearchResult) :=
  match st.retriever with
  | none => Except.error "No retriever available. Add resources first."
  | some r =>
    let k := if env.hasSearchKwargs r then limit else env.defaultK r
    let docs := env.invoke r k query
    let docs :=
      match resource_type with
      | some t =>
        docs.filter (fun (d : Doc) =>
          decide (alookup d.metadata "resource_type" = some (MVal.s t)))
      | none => docs
    Except.ok (docs.map (formatResult include_metadata))

/-- A value in the statistics record returned by `get_stats`. -/
inductive StatVal where
  | n (v : Nat)
  | s (v : String)
deriving DecidableEq, Repr

/-- The backend introspection performed by `get_stats` (`pipeline.py`
lines 377-387): a Chroma `_collection.count()`, a FAISS `index.ntotal`, no
countable handle on the object, or the probe raising (both of the last
two fall back to the literal string "unknown"). -/
inductive CountProbe where
  | chromaCollection (count : Nat)
  | faissIndex (ntotal : Nat)
  | noHandle
  | raises
deriving DecidableEq, Repr

/-- Embedding of `RAGProcessor.get_stats` (`pipeline.py` lines 366-395):
the returned dict, as its association list in literal order. The branch
with no vector store returns a four-key record without `retriever_type`,
exactly as the source's early return does. -/
def get_stats (cfg : RAGConfig) (probe : CountProbe) (st : RAGState) :
    List (String × StatVal) :=
  match st.vectorstore with
  | none =>
    [("total_documents", StatVal.n 0),
     ("vectorstore_type", StatVal.s cfg.vectorstore.type),
     ("embedding_model", StatVal.s cfg.embedding.model_name),
     ("status", StatVal.s "empty")]
  | some _ =>
    let total_docs : StatVal :=
      match probe with
      | CountProbe.chromaCollection c => StatVal.n c
      | CountProbe.faissIndex c => StatVal.n c
      | CountProbe.noHandle => StatVal.s "unknown"
      | CountProbe.raises => StatVal.s "unknown"
    [("total_documents", total_docs),
     ("vectorstore_type", StatVal.s cfg.vectorstore.type),
     ("embedding_model", StatVal.s cfg.embedding.model_name),
     ("retriever_type", StatVal.s cfg.retriever.type),
     ("status", StatVal.s "active")]

/-- Embedding of `RAGProcessor.clear_knowledge_base` (`pipeline.py` lines
397-410): both in-memory references are reset; the removal of the
persisted directory is a filesystem effect outside the model. -/
def clear_knowledge_base (st : RAGState) : RAGState :=
  { st with vectorstore := none, retriever := none }

/-- Character-list matching used by `strContains`: does the second list
start with the first one? -/
def startsWithChars : List Char → List Char → Bool
  | [], _ => true
  | _ :: _, [] => false
  | p :: ps, c :: cs => p == c && startsWithChars ps cs

/-- Does the first character list occur inside the second one? -/
def containsChars : List Char → List Char → Bool
  | pat, [] => startsWithChars pat []
  | pat, c :: cs => startsWithChars pat (c :: cs) || containsChars pat cs

/-- Python's `pat in s` substring test, written by structural recursion on
the character data so that concrete instances reduce. -/
def strContains (s pat : String) : Bool := containsChars pat.data s.data

/-- Python's `str.lower()` for the ASCII error texts involved. -/
def strToLower (s : String) : String := String.mk (s.data.map Char.toLower)

/-- The OpenAI-key message raised by `_handle_initialization_error`
(`pipeline.py` lines 74-80). -/
def openaiKeyMsg (t : String) : String :=
  "OpenAI API key is required for '" ++ t ++ "' embeddings.\n" ++
  "Solutions:\n" ++
  "  1. Set environment variable: export OPENAI_API_KEY='your-key-here'\n" ++
  "  2. Use local config instead: --config-profile local\n" ++
  "  3. Switch to a different embedding type in your config"

/-- The Azure message raised by `_handle_initialization_error`
(`pipeline.py` lines 84-88). -/
def azureMsg : String :=
  "Azure OpenAI configuration is incomplete.\n" ++
  "Required: azure_endpoint, api_key, and api_version\n" ++
  "Check your configuration or use a different profile"

/-- The Cohere message raised by `_handle_initialization_error`
(`pipeline.py` lines 92-96). -/
def cohereMsg : String :=
  "Cohere API key is required for Cohere embeddings.\n" ++
  "Set environment variable: export COHERE_API_KEY='your-key-here'\n" ++
  "Or use local config: --config-profile local"

/-- The model-download message raised by `_handle_initialization_error`
(`pipeline.py` lines 100-107). -/
def hfMsg (model_name err : String) : String :=
  "Failed to load model '" ++ model_name ++ "'.\n" ++
  "This might be due to:\n" ++
  "  1. Network connectivity issues\n" ++
  "  2. Invalid model name\n" ++
  "  3. Missing dependencies\n" ++
  "Original error: " ++ err

/-- The generic fallback message raised by `_handle_initialization_error`
(`pipeline.py` lines 111-115). -/
def genericMsg (t err : String) : String :=
  "Failed to initialize RAG system with " ++ t ++ " embeddings.\n" ++
  "Config profile: Check your configuration settings.\n" ++
  "Original error: " ++ err

/-- What `_handle_initialization_error` does: raise a
`ConfigurationError` with the given message, or return without raising
(the dangling inner branch at `pipeline.py` lines 72-80 when the error
text matches the OpenAI-key pattern but the embedding type is not
"openai"). -/
inductive InitHandling where
  | raiseConfig (msg : String)
  | fallthrough
deriving DecidableEq, Repr

/-- Embedding of `RAGProcessor._handle_initialization_error`
(`pipeline.py` lines 67-115), branch for branch: the checks run on the
lower-cased error text, the HuggingFace and generic messages interpolate
the original error text. -/
def handle_initialization_error (errStr : String) (cfg : RAGConfig) :
    InitHandling :=
  let e := strToLower errStr
  if strContains e "api_key" && (strContains e "openai" || strContains e "client option") then
    if cfg.embedding.type = "openai" then
      InitHandling.raiseConfig (openaiKeyMsg cfg.embedding.type)
    else
      InitHandling.fallthrough
  else if strContains e "azure" then
    InitHandling.raiseConfig azureMsg
  else if strContains e "cohere" && strContains e "api" then
    InitHandling.raiseConfig cohereMsg
  else if ["huggingface", "sentence", "transformers", "download"].any
      (fun t => strContains e t) then
    InitHandling.raiseConfig (hfMsg cfg.embedding.model_name errStr)
  else
    InitHandling.raiseConfig (genericMsg cfg.embedding.type errStr)

/-- The outcome of `_load_existing_vectorstore`'s call to
`VectorStoreFactory.load_vectorstore` during construction: the call
raised (swallowed by the handler), returned `None`, or returned a loaded
store. -/
inductive LoadAttempt where
  | raised (msg : String)
  | noStore
  | loaded (vs : VStore)
deriving DecidableEq, Repr

/-- The result of `RAGProcessor.__init__`: a constructed instance with
its state, or a raised `ConfigurationError`. -/
inductive InitResult where
  | ok (st : RAGState)
  | configError (msg : String)
deriving DecidableEq, Repr

/-- Embedding of `RAGProcessor.__init__` (`pipeline.py` lines 50-65)
together with `_load_existing_vectorstore` (lines 117-135).
`embedResult` is the outcome of the external
`EmbeddingsFactory.create_embeddings` call (its module is not among the
provided sources); on failure the error string is passed to
`_handle_initialization_error`, and when that handler falls through
without raising, construction continues with the `embeddings` attribute
unset — the subsequent vector-store load then dereferences the missing
attribute and the resulting exception is swallowed by
`_load_existing_vectorstore`'s handler, leaving both references `None`.
When a store is loaded, the retriever is built by
`RetrieverFactory.create_retriever` without an LLM; a retriever-creation
exception is also swallowed, leaving the store set but the retriever
`None`. -/
def ragProcessorInit (cfg : RAGConfig) (embedResult : Except String Unit)
    (la : LoadAttempt) : InitResult :=
  match embedResult with
  | Except.error e =>
    match handle_initialization_error e cfg with
    | InitHandling.raiseConfig msg => InitResult.configError msg
    | InitHandling.fallthrough =>
      InitResult.ok { embeddingsSet := false, vectorstore := none, retriever := none }
  | Except.ok _ =>
    match la with
    | LoadAttempt.raised _ =>
      InitResult.ok { embeddingsSet := true, vectorstore := none, retriever := none }
    | LoadAttempt.noStore =>
      InitResult.ok { embeddingsSet := true, vectorstore := none, retriever := none }
    | LoadAttempt.loaded vs =>
      match create_retriever cfg.retriever vs none with
      | Except.ok r =>
        InitResult.ok { embeddingsSet := true, vectorstore := some vs, retriever := some r }
      | Except.error _ =>
        InitResult.ok { embeddingsSet := true, vectorstore := some vs, retriever := none }

/-! Concrete fixtures used by witnesses and counterexamples. -/

def doc0 : Doc :=
  { page_content := "Kubernetes deployments require manifests.", metadata := [] }

def docSplit : Doc :=
  { page_content := "chunk one",
    metadata := [("tags", MVal.strs ["splitter"]), ("Header 1", MVal.s "Intro")] }

def res0 : ResourceConfig :=
  { url := "docs/readme.txt", resource_type := "dsl", priority := 1,
    tags := ["k8s"], metadata := [("tags", MVal.strs ["x"])] }

def embCfg0 : EmbeddingConfig :=
  { type := "openai", model_name := "text-embedding-3-small" }

def vsCfg0 : VectorStoreConfig :=
  { type := "chroma", collection_name := "paas_ai_knowledge",
    persist_directory := some "rag_data", params := [] }

def retCfg0 : RetrieverConfig :=
  { type := "similarity", search_kwargs := [], params := [] }

def cfg0 : RAGConfig :=
  { embedding := embCfg0, vectorstore := vsCfg0, retriever := retCfg0,
    validate_urls := true, skip_invalid_docs := true }

def azureCfg : RAGConfig :=
  { cfg0 with
    embedding := { type := "azure_openai", model_name := "text-embedding-ada-002" } }

def cfgMultiQuery : RAGConfig :=
  { cfg0 with retriever := { type := "multi_query", search_kwargs := [], params := [] } }

def env0 : RetrieverEnv :=
  { hasSearchKwargs := fun _ => true,
    invoke := fun _ _ _ => [{ page_content := "Kubernetes deployments require manifests.",
                              metadata := [("resource_type", MVal.s "dsl")] }],
    defaultK := fun _ => 4 }

def freshState : RAGState :=
  { embeddingsSet := true, vectorstore := none, retriever := none }

def ret0 : BuiltRetriever :=
  BuiltRetriever.fromVectorstore [doc0] "similarity" [] []

def activeState : RAGState :=
  { embeddingsSet := true, vectorstore := some [doc0], retriever := some ret0 }

/-! Shared helper lemmas. -/

theorem addResourcesStep_delta (cfg : RAGConfig) (now : Nat) (acc : AddAcc)
    (it : ResourceConfig × LoadSplitOutcome) :
    (addResourcesStep cfg now acc it).successful + (addResourcesStep cfg now acc it).failed
        = acc.successful + acc.failed + 1 ∧
    (addResourcesStep cfg now acc it).errors.length + acc.failed
        = acc.errors.length + (addResourcesStep cfg now acc it).failed ∧
    (addResourcesStep cfg now acc it).total_documents + acc.all_documents.length
        = acc.total_documents + (addResourcesStep cfg now acc it).all_documents.length := by
  unfold addResourcesStep
  cases process_resource cfg now it.2 it.1 with
  | error e => simp; omega
  | ok docs =>
    cases docs with
    | nil => simp; omega
    | cons d ds => simp [List.length_append]; omega

theorem addResources_foldl_invariant (cfg : RAGConfig) (now : Nat)
    (items : List (ResourceConfig × LoadSplitOutcome)) (acc : AddAcc) :
    (items.foldl (addResourcesStep cfg now) acc).successful
        + (items.foldl (addResourcesStep cfg now) acc).failed
        = acc.successful + acc.failed + items.length ∧
    (items.foldl (addResourcesStep cfg now) acc).errors.length + acc.failed
        = acc.errors.length + (items.foldl (addResourcesStep cfg now) acc).failed ∧
    (items.foldl (addResourcesStep cfg now) acc).total_documents
        + acc.all_documents.length
        = acc.total_documents
        + (items.foldl (addResourcesStep cfg now) acc).all_documents.length := by
  induction items generalizing acc with
  | nil => simp
  | cons it tl ih =>
    simp only [List.foldl_cons, List.length_cons]
    have hstep := addResourcesStep_delta cfg now acc it
    have htl := ih (addResourcesStep cfg now acc it)
    omega

/-! Claim theorems. -/

/-- C1 (code bug): `_handle_initialization_error` does not reclassify every
embeddings-construction failure. When the error text matches the
OpenAI-key pattern ("api_key" together with "openai" or "client option")
but the configured embedding type is not "openai", the handler's dangling
inner branch returns without raising, and `RAGProcessor.__init__`
completes producing an instance whose `embeddings` attribute was never
assigned — contradicting both the claim and the handler's own purpose of
reclassifying (its final branch is an explicit generic fallback). Shown
here at an Azure-style configuration receiving the Azure OpenAI client's
missing-key error text. -/
theorem c1_initialization_error_swallowed :
    handle_initialization_error "The api_key client option must be set"
        azureCfg = InitHandling.fallthrough ∧
    ragProcessorInit azureCfg
        (Except.error "The api_key client option must be set")
        LoadAttempt.noStore =
      InitResult.ok { embeddingsSet := false, vectorstore := none, retriever := none } := by
  constructor <;> rfl

/-- C4: every chunk produced by `process_resource` gets the resource's own
metadata map applied last in the annotation step: any key bound in the
resource-level metadata keeps its resource-level (last) binding in the
chunk's final metadata, overriding splitter- and loader-derived bindings and
the standard keys (`source_url`, `resource_type`, `priority`, `tags`,
`processed_at`) alike — in particular a resource-level
`("tags", strs ["x"])` overrides any splitter-produced `tags` key. -/
theorem c4_resource_metadata_applied_last
    (cfg : RAGConfig) (now : Nat) (o : LoadSplitOutcome) (r : ResourceConfig)
    (docs : List Doc) (hp : process_resource cfg now o r = Except.ok docs) :
    ∀ c ∈ docs, ∀ k v, alookup r.metadata k = some v →
      alookup c.metadata k = some v := by
  intro c hc k v hk
  cases o with
  | raiseExc m =>
    by_cases hs : cfg.skip_invalid_docs
    · simp [process_resource, hs] at hp
      subst hp; simp at hc
    · simp [process_resource, hs] at hp
  | emptyLoad =>
    simp [process_resource] at hp
    subst hp; simp at hc
  | split chunks =>
    simp only [process_resource, Except.ok.injEq] at hp
    subst hp
    rcases List.mem_map.mp hc with ⟨d, _, rfl⟩
    show alookup (d.metadata ++ (standardMeta r now ++ r.metadata)) k = some v
    rw [alookup_append, alookup_append, hk]

/-- C4 witness: a splitter-produced `tags` binding is overridden by the
resource-level one on the annotated chunk. -/
theorem c4_witness :
    alookup (annotateChunk res0 7 docSplit).metadata "tags"
      = some (MVal.strs ["x"]) := by
  have h := c4_resource_metadata_applied_last cfg0 7
    (LoadSplitOutcome.split [docSplit]) res0
    [annotateChunk res0 7 docSplit] rfl
  exact h (annotateChunk res0 7 docSplit) (by simp) "tags" (MVal.strs ["x"]) rfl

/-- C5: on a freshly constructed processor on which no persisted vector
store was loaded (the load returned nothing or raised) and no resources
were added, every `search` call raises the "No retriever available" error
instead of returning an empty list. -/
theorem c5_search_raises_without_retriever
    (cfg : RAGConfig) (env : RetrieverEnv) (la : LoadAttempt) (st : RAGState)
    (hla : la = LoadAttempt.noStore ∨ ∃ m, la = LoadAttempt.raised m)
    (hinit : ragProcessorInit cfg (Except.ok ()) la = InitResult.ok st)
    (q : String) (t : Option String) (k : Nat) (im : Bool) :
    search env st q t k im =
      Except.error "No retriever available. Add resources first." := by
  rcases hla with rfl | ⟨m, rfl⟩ <;>
    (simp only [ragProcessorInit, InitResult.ok.injEq] at hinit;
     subst hinit; rfl)

/-- C5 witness: a concrete freshly constructed processor whose load found
no persisted store raises on `search`. -/
theorem c5_witness :
    search env0 freshState "kubernetes" none 5 true =
      Except.error "No retriever available. Add resources first." :=
  c5_search_raises_without_retriever cfg0 env0 LoadAttempt.noStore freshState
    (Or.inl rfl) rfl "kubernetes" none 5 true

/-- C7: `load_vectorstore` returns `None` and never raises (it is a total
function here) whenever the persist directory is unset (Python-falsy) or
does not exist, whenever the backend load attempt raises, and for any
non-chroma non-faiss backend type; it returns a store exactly when the
directory checks pass and the backend load attempt for the configured
type succeeds. -/
theorem c7_load_vectorstore_none_on_failure
    (cfg : VectorStoreConfig) (de : Bool) (ca fa : Except String VStore) :
    ((cfg.persist_directory = none ∨ cfg.persist_directory = some "") →
      load_vectorstore cfg de ca fa = none) ∧
    (de = false → load_vectorstore cfg de ca fa = none) ∧
    (∀ e, cfg.type = "chroma" → ca = Except.error e →
      load_vectorstore cfg de ca fa = none) ∧
    (∀ e, cfg.type = "faiss" → fa = Except.error e →
      load_vectorstore cfg de ca fa = none) ∧
    (cfg.type ≠ "chroma" → cfg.type ≠ "faiss" →
      load_vectorstore cfg de ca fa = none) ∧
    (∀ vs, load_vectorstore cfg de ca fa = some vs →
      de = true ∧ (∃ p, cfg.persist_directory = some p ∧ p ≠ "") ∧
      ((cfg.type = "chroma" ∧ ca = Except.ok vs) ∨
       (cfg.type = "faiss" ∧ fa = Except.ok vs))) := by
  refine ⟨?_, ?_, ?_, ?_, ?_, ?_⟩
  · rintro (h | h) <;> simp [load_vectorstore, h]
  · rintro rfl
    cases hpd : cfg.persist_directory with
    | none => simp [load_vectorstore, hpd]
    | some p => by_cases hp : p = "" <;> simp [load_vectorstore, hpd, hp]
  · rintro e ht rfl
    cases hpd : cfg.persist_directory with
    | none => simp [load_vectorstore, hpd]
    | some p =>
      by_cases hp : p = "" <;>
        cases de <;> simp [load_vectorstore, hpd, hp, ht, Except.toOption]
  · rintro e ht rfl
    cases hpd : cfg.persist_directory with
    | none => simp [load_vectorstore, hpd]
    | some p =>
      by_cases hc : cfg.type = "chroma"
      · by_cases hp : p = "" <;>
          cases de <;> simp [load_vectorstore, hpd, hp, hc] at ht ⊢
      · by_cases hp : p = "" <;>
          cases de <;> simp [load_vectorstore, hpd, hp, hc, ht, Except.toOption]
  · intro h1 h2
    cases hpd : cfg.persist_directory with
    | none => simp [load_vectorstore, hpd]
    | some p =>
      by_cases hp : p = "" <;>
        cases de <;> simp [load_vectorstore, hpd, hp, h1, h2]
  · intro vs h
    cases hpd : cfg.persist_directory with
    | none => simp [load_vectorstore, hpd] at h
    | some p =>
      by_cases hp : p = ""
      · simp [load_vectorstore, hpd, hp] at h
      · cases de with
        | false => simp [load_vectorstore, hpd, hp] at h
        | true =>
          by_cases ht : cfg.type = "chroma"
          · cases ca with
            | error e =>
              simp [load_vectorstore, hpd, hp, ht, Except.toOption] at h
            | ok v =>
              simp [load_vectorstore, hpd, hp, ht, Except.toOption] at h
              subst h
              exact ⟨rfl, ⟨p, rfl, hp⟩, Or.inl ⟨ht, rfl⟩⟩
          · by_cases hf : cfg.type = "faiss"
            · cases fa with
              | error e =>
                simp [load_vectorstore, hpd, hp, ht, hf, Except.toOption] at h
              | ok v =>
                simp [load_vectorstore, hpd, hp, ht, hf, Except.toOption] at h
                subst h
                exact ⟨rfl, ⟨p, rfl, hp⟩, Or.inr ⟨hf, rfl⟩⟩
            · simp [load_vectorstore, hpd, hp, ht, hf] at h

/-- C7 witness: concrete instances of the three `None` cases and one
successful load. -/
theorem c7_witness :
    load_vectorstore { vsCfg0 with persist_directory := none } true
        (Except.ok [doc0]) (Except.ok [doc0]) = none ∧
    load_vectorstore vsCfg0 false (Except.ok [doc0]) (Except.ok [doc0]) = none ∧
    load_vectorstore vsCfg0 true (Except.error "corrupt index") (Except.ok [doc0]) = none ∧
    (load_vectorstore vsCfg0 true (Except.ok [doc0]) (Except.error "boom") = some [doc0] →
      true = true ∧ (∃ p, vsCfg0.persist_directory = some p ∧ p ≠ "") ∧
      ((vsCfg0.type = "chroma" ∧
          (Except.ok [doc0] : Except String VStore) = Except.ok [doc0]) ∨
       (vsCfg0.type = "faiss" ∧
          (Except.error "boom" : Except String VStore) = Except.ok [doc0]))) := by
  refine ⟨?_, ?_, ?_, ?_⟩
  · exact (c7_load_vectorstore_none_on_failure _ true (Except.ok [doc0])
      (Except.ok [doc0])).1 (Or.inl rfl)
  · exact (c7_load_vectorstore_none_on_failure vsCfg0 false (Except.ok [doc0])
      (Except.ok [doc0])).2.1 rfl
  · exact (c7_load_vectorstore_none_on_failure vsCfg0 true _
      (Except.ok [doc0])).2.2.1 "corrupt index" rfl rfl
  · exact (c7_load_vectorstore_none_on_failure vsCfg0 true (Except.ok [doc0])
      (Except.error "boom")).2.2.2.2.2 [doc0]

/-- C8: `create_retriever` raises exactly as specified — a `multi_query`
configuration with no LLM supplied fails with "LLM is required for
MultiQueryRetriever", a `parent_document` configuration whose params lack
`child_splitter` fails with "child_splitter is required for
ParentDocumentRetriever", and every type value outside the six supported
strategies fails with the descriptive "Unsupported retriever type"
message (no fallback retriever); with their preconditions met, all six
supported types return a retriever without raising. -/
theorem c8_create_retriever_contract :
    (∀ cfg vs, cfg.type = "multi_query" →
      create_retriever cfg vs none =
        Except.error "LLM is required for MultiQueryRetriever") ∧
    (∀ cfg vs llm, cfg.type = "parent_document" →
      alookup cfg.params "child_splitter" = none →
      create_retriever cfg vs llm =
        Except.error "child_splitter is required for ParentDocumentRetriever") ∧
    (∀ cfg vs llm,
      cfg.type ∉ (["similarity", "mmr", "similarity_score_threshold",
        "ensemble", "multi_query", "parent_document"] : List String) →
      create_retriever cfg vs llm =
        Except.error ("Unsupported retriever type: " ++ cfg.type)) ∧
    (∀ cfg vs llm,
      (cfg.type = "similarity" ∨ cfg.type = "mmr" ∨
       cfg.type = "similarity_score_threshold" ∨ cfg.type = "ensemble" ∨
       (cfg.type = "multi_query" ∧ llm ≠ none) ∨
       (cfg.type = "parent_document" ∧
        alookup cfg.params "child_splitter" ≠ none)) →
      ∃ r, create_retriever cfg vs llm = Except.ok r) := by
  refine ⟨?_, ?_, ?_, ?_⟩
  · rintro ⟨t, sk, ps⟩ vs ht
    obtain rfl : t = "multi_query" := ht
    rfl
  · rintro ⟨t, sk, ps⟩ vs llm ht hcs
    obtain rfl : t = "parent_document" := ht
    have hcs' : alookup ps "child_splitter" = none := hcs
    simp [create_retriever, hcs']
  · rintro ⟨t, sk, ps⟩ vs llm hmem
    simp only [List.mem_cons, List.not_mem_nil, or_false, not_or] at hmem
    obtain ⟨h1, h2, h3, h4, h5, h6⟩ := hmem
    simp [create_retriever, h1, h2, h3, h4, h5, h6]
  · rintro ⟨t, sk, ps⟩ vs llm hpre
    rcases hpre with ht | ht | ht | ht | ⟨ht, hllm⟩ | ⟨ht, hcs⟩ <;>
      obtain rfl : t = _ := ht
    · exact ⟨_, rfl⟩
    · exact ⟨_, rfl⟩
    · exact ⟨_, rfl⟩
    · exact ⟨_, rfl⟩
    · cases llm with
      | none => exact absurd rfl hllm
      | some l => exact ⟨_, rfl⟩
    · cases hlook : alookup ps "child_splitter" with
      | none => exact absurd hlook hcs
      | some cs =>
        refine ⟨BuiltRetriever.parentDocument vs (alookup ps "docstore") cs
          (ps.filter (fun kv => kv.1 ≠ "docstore" ∧ kv.1 ≠ "child_splitter")), ?_⟩
        simp [create_retriever, hlook]

/-- C8 witness: concrete instances — the multi_query and parent_document
failures, the unsupported-type failure, and a successful similarity
retriever. -/
theorem c8_witness :
    create_retriever { type := "multi_query", search_kwargs := [], params := [] }
        [doc0] none = Except.error "LLM is required for MultiQueryRetriever" ∧
    create_retriever { type := "parent_document", search_kwargs := [], params := [] }
        [doc0] none =
      Except.error "child_splitter is required for ParentDocumentRetriever" ∧
    create_retriever { type := "keyword", search_kwargs := [], params := [] }
        [doc0] none = Except.error ("Unsupported retriever type: " ++ "keyword") ∧
    (∃ r, create_retriever retCfg0 [doc0] none = Except.ok r) := by
  refine ⟨?_, ?_, ?_, ?_⟩
  · exact c8_create_retriever_contract.1 _ [doc0] rfl
  · exact c8_create_retriever_contract.2.1 _ [doc0] none rfl rfl
  · exact c8_create_retriever_contract.2.2.1 _ [doc0] none (by decide)
  · exact c8_create_retriever_contract.2.2.2 retCfg0 [doc0] none (Or.inl rfl)

/-- C10: in `add_resources`'s loop, a resource whose `process_resource`
result is the empty chunk list — which is what both an empty loader
result and an exception swallowed under `skip_invalid_docs=True`
produce — is counted as failed, appending exactly the error string
"No documents from <url>", and leaves the success count and the batch
untouched; the success count is incremented (by exactly one) only when
the resource yields at least one chunk. -/
theorem c10_empty_chunks_count_as_failed (cfg : RAGConfig) (now : Nat) :
    (∀ acc r o, process_resource cfg now o r = Except.ok [] →
      addResourcesStep cfg now acc (r, o) =
        { acc with failed := acc.failed + 1,
                   errors := acc.errors ++ ["No documents from " ++ r.url] }) ∧
    (∀ r, process_resource cfg now LoadSplitOutcome.emptyLoad r = Except.ok []) ∧
    (∀ r m, cfg.skip_invalid_docs = true →
      process_resource cfg now (LoadSplitOutcome.raiseExc m) r = Except.ok []) ∧
    (∀ acc r o,
      (addResourcesStep cfg now acc (r, o)).successful ≠ acc.successful →
      ∃ docs, process_resource cfg now o r = Except.ok docs ∧ docs ≠ [] ∧
        (addResourcesStep cfg now acc (r, o)).successful = acc.successful + 1) := by
  refine ⟨?_, ?_, ?_, ?_⟩
  · intro acc r o hp
    simp [addResourcesStep, hp]
  · intro r
    rfl
  · intro r m hs
    simp [process_resource, hs]
  · intro acc r o hne
    revert hne
    unfold addResourcesStep
    cases hp : process_resource cfg now o r with
    | error e => intro hne; exact absurd rfl hne
    | ok docs =>
      cases docs with
      | nil => intro hne; exact absurd rfl hne
      | cons d ds =>
        intro _
        exact ⟨d :: ds, rfl, by simp, by simp⟩

/-- C10 witness: a concrete swallowed loader failure is recorded as a
"No documents from" failure, and a concrete empty load produces the empty
chunk list. -/
theorem c10_witness :
    addResourcesStep cfg0 3 addAccInit (res0, LoadSplitOutcome.raiseExc "HTTP 404") =
      { addAccInit with failed := addAccInit.failed + 1,
                        errors := addAccInit.errors ++
                          ["No documents from " ++ res0.url] } ∧
    process_resource cfg0 3 LoadSplitOutcome.emptyLoad res0 = Except.ok [] := by
  constructor
  · exact (c10_empty_chunks_count_as_failed cfg0 3).1 addAccInit res0
      (LoadSplitOutcome.raiseExc "HTTP 404") rfl
  · exact (c10_empty_chunks_count_as_failed cfg0 3).2.1 res0

/-- C2: partial-failure isolation. With `skip_invalid_docs=True`, for a
list of three resources whose middle one raises in its loader while the
first and third produce non-empty chunk lists, `add_resources` returns
(no exception) a summary with `successful=2, failed=1`, and the single
batched vector-store write receives exactly the annotated chunks of
resources 1 and 3. Stated for a supported backend configuration (chroma
store, similarity retriever) so that the batched write itself succeeds. -/
theorem c2_partial_failure_isolation
    (pa : Bool) (cfg : RAGConfig) (now : Nat) (r1 r2 r3 : ResourceConfig)
    (cs1 cs3 : List Doc) (m : String) (st : RAGState)
    (hskip : cfg.skip_invalid_docs = true)
    (h1 : cs1 ≠ []) (h3 : cs3 ≠ [])
    (hvs : cfg.vectorstore.type = "chroma")
    (hrt : cfg.retriever.type = "similarity") :
    ∃ st2,
      add_resources pa cfg now
          [(r1, LoadSplitOutcome.split cs1), (r2, LoadSplitOutcome.raiseExc m),
           (r3, LoadSplitOutcome.split cs3)] st =
        Except.ok
          ({ total_resources := 3, successful := 2, failed := 1,
             total_documents := cs1.length + cs3.length,
             errors := ["No documents from " ++ r2.url] },
           st2,
           cs1.map (annotateChunk r1 now) ++ cs3.map (annotateChunk r3 now)) := by
  rcases cs1 with _ | ⟨d1, ds1⟩
  · exact absurd rfl h1
  rcases cs3 with _ | ⟨d3, ds3⟩
  · exact absurd rfl h3
  rcases st with ⟨es, vsOpt, ret⟩
  cases vsOpt with
  | none =>
    refine ⟨{ embeddingsSet := es,
              vectorstore := some (filter_complex_metadata
                ((d1 :: ds1).map (annotateChunk r1 now) ++
                 (d3 :: ds3).map (annotateChunk r3 now))),
              retriever := some (BuiltRetriever.fromVectorstore
                (filter_complex_metadata
                  ((d1 :: ds1).map (annotateChunk r1 now) ++
                   (d3 :: ds3).map (annotateChunk r3 now)))
                "similarity" cfg.retriever.search_kwargs
                cfg.retriever.params) }, ?_⟩
    simp [add_resources, addResourcesStep, process_resource, hskip, addAccInit,
      add_documents_to_vectorstore, create_vectorstore, hvs, hrt,
      create_retriever, List.length_append]
  | some v =>
    refine ⟨{ embeddingsSet := es,
              vectorstore := some (v ++ filter_complex_metadata
                ((d1 :: ds1).map (annotateChunk r1 now) ++
                 (d3 :: ds3).map (annotateChunk r3 now))),
              retriever := some (BuiltRetriever.fromVectorstore
                (v ++ filter_complex_metadata
                  ((d1 :: ds1).map (annotateChunk r1 now) ++
                   (d3 :: ds3).map (annotateChunk r3 now)))
                "similarity" cfg.retriever.search_kwargs
                cfg.retriever.params) }, ?_⟩
    simp [add_resources, addResourcesStep, process_resource, hskip, addAccInit,
      add_documents_to_vectorstore, create_vectorstore, hvs, hrt,
      create_retriever, List.length_append]

/-- C2 witness: a concrete three-resource run with the middle loader
raising. -/
theorem c2_witness :
    ∃ st2,
      add_resources true cfg0 0
          [(res0, LoadSplitOutcome.split [doc0]),
           ({ res0 with url := "docs/broken.txt" }, LoadSplitOutcome.raiseExc "HTTP 404"),
           ({ res0 with url := "docs/three.txt" }, LoadSplitOutcome.split [docSplit])] freshState =
        Except.ok
          ({ total_resources := 3, successful := 2, failed := 1,
             total_documents := ([doc0] : List Doc).length + ([docSplit] : List Doc).length,
             errors := ["No documents from " ++ ({ res0 with url := "docs/broken.txt" } : ResourceConfig).url] },
           st2,
           ([doc0] : List Doc).map (annotateChunk res0 0) ++
             ([docSplit] : List Doc).map
               (annotateChunk { res0 with url := "docs/three.txt" } 0)) :=
  c2_partial_failure_isolation true cfg0 0 res0
    { res0 with url := "docs/broken.txt" } { res0 with url := "docs/three.txt" }
    [doc0] [docSplit] "HTTP 404" freshState rfl (by simp) (by simp) rfl rfl

/-- C3: the `resource_type` post-filter only shrinks the result set. With
an active retriever that exposes the `search_kwargs` result-count
parameter (so `search` sets its `k` to `limit`) and whose retrieval
honors that bound, `search(q, resource_type=T, limit)` returns at most
`limit` results, and (metadata being requested) every returned result's
metadata has `resource_type` equal to `T`. -/
theorem c3_resource_type_filter_shrinks
    (env : RetrieverEnv) (st : RAGState) (r : BuiltRetriever)
    (q T : String) (lim : Nat)
    (hr : st.retriever = some r)
    (hsk : env.hasSearchKwargs r = true)
    (hbound : ∀ q, (env.invoke r lim q).length ≤ lim) :
    ∃ results,
      search env st q (some T) lim true = Except.ok results ∧
      results.length ≤ lim ∧
      ∀ res ∈ results, ∃ sm, res.metadata = some sm ∧
        sm.resource_type = some (MVal.s T) := by
  simp only [search, hr, hsk, if_true]
  refine ⟨_, rfl, ?_, ?_⟩
  · simp only [List.length_map]
    exact le_trans (List.length_filter_le _ _) (hbound q)
  · intro res hres
    rcases List.mem_map.mp hres with ⟨d, hd, rfl⟩
    have hrt : alookup d.metadata "resource_type" = some (MVal.s T) :=
      of_decide_eq_true (List.mem_filter.mp hd).2
    exact ⟨_, rfl, hrt⟩

/-- C3 witness: a concrete search against a one-document retriever. -/
theorem c3_witness :
    ∃ results,
      search env0 activeState "kubernetes" (some "dsl") 1 true =
        Except.ok results ∧
      results.length ≤ 1 ∧
      ∀ res ∈ results, ∃ sm, res.metadata = some sm ∧
        sm.resource_type = some (MVal.s "dsl") :=
  c3_resource_type_filter_shrinks env0 activeState ret0 "kubernetes" "dsl" 1
    rfl rfl (fun q => by simp [env0])

/-- C6 counterexample: the claim says `get_stats` always returns a record
containing the `retriever_type` key, but on a state with no vector store
the source's early return omits it. -/
theorem c6_counterexample :
    alookup (get_stats cfg0 CountProbe.noHandle freshState) "retriever_type"
      = none := by
  rfl

/-- C6 (amended): `get_stats` always returns `total_documents`,
`vectorstore_type`, `embedding_model` and `status`; `status` is "empty"
with `total_documents = 0` when no vector store exists, and "active"
otherwise — but the `retriever_type` key is present only in the active
case (the empty-store record omits it). `clear_knowledge_base()` followed
by `get_stats()` yields `status = "empty"` and `total_documents = 0`. -/
theorem c6_get_stats_contract (cfg : RAGConfig) (probe : CountProbe)
    (st : RAGState) :
    (st.vectorstore = none →
      get_stats cfg probe st =
        [("total_documents", StatVal.n 0),
         ("vectorstore_type", StatVal.s cfg.vectorstore.type),
         ("embedding_model", StatVal.s cfg.embedding.model_name),
         ("status", StatVal.s "empty")]) ∧
    (∀ vs, st.vectorstore = some vs →
      alookup (get_stats cfg probe st) "status" = some (StatVal.s "active") ∧
      alookup (get_stats cfg probe st) "retriever_type"
        = some (StatVal.s cfg.retriever.type) ∧
      alookup (get_stats cfg probe st) "vectorstore_type"
        = some (StatVal.s cfg.vectorstore.type) ∧
      alookup (get_stats cfg probe st) "embedding_model"
        = some (StatVal.s cfg.embedding.model_name) ∧
      (alookup (get_stats cfg probe st) "total_documents").isSome = true) ∧
    (alookup (get_stats cfg probe (clear_knowledge_base st)) "status"
        = some (StatVal.s "empty") ∧
     alookup (get_stats cfg probe (clear_knowledge_base st)) "total_documents"
        = some (StatVal.n 0)) := by
  refine ⟨?_, ?_, ?_, ?_⟩
  · intro h
    simp [get_stats, h]
  · intro vs h
    simp only [get_stats, h]
    exact ⟨rfl, rfl, rfl, rfl, by cases probe <;> rfl⟩
  · rfl
  · rfl

/-- C6 witness: the empty-state record and the clear-then-stats scenario
at concrete inputs. -/
theorem c6_witness :
    get_stats cfg0 CountProbe.noHandle freshState =
      [("total_documents", StatVal.n 0),
       ("vectorstore_type", StatVal.s cfg0.vectorstore.type),
       ("embedding_model", StatVal.s cfg0.embedding.model_name),
       ("status", StatVal.s "empty")] ∧
    alookup (get_stats cfg0 CountProbe.noHandle (clear_knowledge_base activeState))
        "status" = some (StatVal.s "empty") ∧
    alookup (get_stats cfg0 CountProbe.noHandle (clear_knowledge_base activeState))
        "total_documents" = some (StatVal.n 0) :=
  ⟨(c6_get_stats_contract cfg0 CountProbe.noHandle freshState).1 rfl,
   (c6_get_stats_contract cfg0 CountProbe.noHandle activeState).2.2.1,
   (c6_get_stats_contract cfg0 CountProbe.noHandle activeState).2.2.2⟩

/-- C9 counterexample: the claim says `add_resources` returns without
raising for every list of resources, but when documents were produced and
the configured retriever type is `multi_query`, the batched write's
retriever rebuild (called without an LLM) raises, and that exception
propagates out of `add_resources`. -/
theorem c9_counterexample :
    add_resources true cfgMultiQuery 0
        [(res0, LoadSplitOutcome.split [doc0])] freshState =
      Except.error "LLM is required for MultiQueryRetriever" := by
  rfl

/-- C9 (amended): the per-resource loop of `add_resources` catches every
per-resource exception; whenever `add_resources` returns (the single
batched vector-store write, when one happens, also succeeding), its
summary satisfies `total_resources` = input length, `successful + failed
= total_resources`, exactly `failed` error entries, and `total_documents`
= the size of the batch handed to the single write. `add_resources` can
still raise — but only out of that single batched write (vector-store
creation or retriever construction, e.g. a `multi_query` retriever
configured with no LLM). -/
theorem c9_add_resources_summary_invariants
    (pa : Bool) (cfg : RAGConfig) (now : Nat)
    (items : List (ResourceConfig × LoadSplitOutcome)) (st : RAGState)
    (summary : AddSummary) (st2 : RAGState) (written : List Doc)
    (h : add_resources pa cfg now items st = Except.ok (summary, st2, written)) :
    summary.total_resources = items.length ∧
    summary.successful + summary.failed = items.length ∧
    summary.errors.length = summary.failed ∧
    summary.total_documents = written.length := by
  have hinv := addResources_foldl_invariant cfg now items addAccInit
  have h0s : addAccInit.successful = 0 := rfl
  have h0f : addAccInit.failed = 0 := rfl
  have h0e : addAccInit.errors.length = 0 := rfl
  have h0t : addAccInit.total_documents = 0 := rfl
  have h0a : addAccInit.all_documents.length = 0 := rfl
  simp only [add_resources] at h
  split at h
  · simp only [Except.ok.injEq, Prod.mk.injEq] at h
    obtain ⟨hs, _, hw⟩ := h
    subst hs
    subst hw
    refine ⟨rfl, ?_, ?_, ?_⟩ <;> simp only [] <;> omega
  · split at h
    · exact absurd h (by simp)
    · simp only [Except.ok.injEq, Prod.mk.injEq] at h
      obtain ⟨hs, _, hw⟩ := h
      subst hs
      subst hw
      refine ⟨rfl, ?_, ?_, ?_⟩ <;> simp only [] <;> omega

/-- C9 witness: a concrete successful run through the invariants. -/
theorem c9_witness :
    ∃ summary st2 written,
      add_resources true cfg0 0 [(res0, LoadSplitOutcome.split [doc0])] freshState =
        Except.ok (summary, st2, written) ∧
      summary.total_resources = 1 ∧
      summary.successful + summary.failed = 1 ∧
      summary.errors.length = summary.failed ∧
      summary.total_documents = written.length := by
  obtain ⟨summary, st2, written, h⟩ :
      ∃ summary st2 written,
        add_resources true cfg0 0 [(res0, LoadSplitOutcome.split [doc0])] freshState =
          Except.ok (summary, st2, written) := ⟨_, _, _, rfl⟩
  have hc := c9_add_resources_summary_invariants true cfg0 0
    [(res0, LoadSplitOutcome.split [doc0])] freshState summary st2 written h
  exact ⟨summary, st2, written, h, hc.1, hc.2.1, hc.2.2.1, hc.2.2.2⟩

end PaasAI
